import Mathlib

/-!
# HadesMem: remote allocator (`src/memory/memory/alloc.cpp`) and region enumeration

A shallow embedding of `hadesmem::Allocator` and of the free functions `Alloc` and `Free`.

Conventions of the embedding.

* A `PVOID` / `LPVOID` is a natural number, `nullptr` is `0`; `SIZE_T` and `DWORD` are natural
  numbers.  `alloc.cpp` performs no arithmetic on them, so no wrap-around can occur there.
* A `Process const*` is an `Option Process`, `nullptr` is `none`.
* The Win32 calls `VirtualAllocEx`, `VirtualFreeEx` and `GetLastError` are fields of a
  `Platform W`, acting on an arbitrary world state `W`; every behaviour of the foreign
  primitives is some `Platform`.
* `Sys W` pairs the world with the list of foreign calls made so far (oldest first), so that
  "called exactly once with these arguments" is a statement about that list.
* A C++ function that may throw returns an `Except Error _` next to the state it leaves behind.
* The asserts of the constructor and of `Allocator::Free` are conditions on the inputs of the
  call; they are kept as comments at their place and hold under the hypotheses of the theorems
  (see `Free_asserts_hold`).
* The assert in the catch block of `FreeUnchecked` always fails when it is reached, and the
  three asserts of `operator=` test what `FreeUnchecked` left behind.  These are modelled:
  `FreeUnchecked`, `operator=` and the destructor take the flag `NDEBUG` (`true` when the
  macro `NDEBUG` is defined, so that `assert` expands to nothing) and end in an `Exit`, which
  is `aborted` when a failed assert stopped the program.  The members and the system state
  returned next to `aborted` are those at the moment of the abort.
-/

namespace hadesmem

/-! ## Windows SDK constants (winnt.h) -/

/-- Allocation type `MEM_COMMIT`. -/
def MEM_COMMIT : Nat := 0x1000

/-- Allocation type `MEM_RESERVE`. -/
def MEM_RESERVE : Nat := 0x2000

/-- Free type `MEM_RELEASE`. -/
def MEM_RELEASE : Nat := 0x8000

/-- Page protection `PAGE_EXECUTE_READWRITE`. -/
def PAGE_EXECUTE_READWRITE : Nat := 0x40

/-! ## Collaborators -/

/-- Modelled from the spec: `hadesmem/process.hpp` is not among the sources.  The `Process`
collaborator "exposes a stable opaque handle and an identity usable for equality". -/
structure Process where
  handle_ : Nat
  id_ : Nat
deriving DecidableEq, Repr

/-- Accessor `Process::GetHandle`. -/
def Process.GetHandle (p : Process) : Nat := p.handle_

/-- Modelled from the spec: `hadesmem/error.hpp` is not among the sources.  An `Error` carries
what `alloc.cpp` attaches to it: `ErrorString(...)` and `ErrorCodeWinLast(...)`. -/
structure Error where
  ErrorString : String
  ErrorCodeWinLast : Nat
deriving DecidableEq, Repr

/-- One foreign call, with the arguments it was given. -/
inductive Call where
  | VirtualAllocEx (hProcess lpAddress dwSize flAllocationType flProtect : Nat)
  | VirtualFreeEx (hProcess lpAddress dwSize dwFreeType : Nat)
deriving DecidableEq, Repr

/-- The Win32 primitives used by `alloc.cpp`, over a world state `W`.
`VirtualAllocEx` returns the address (`0` on failure), `VirtualFreeEx` returns `BOOL`. -/
structure Platform (W : Type) where
  VirtualAllocEx : W → Nat → Nat → Nat → Nat → Nat → Nat × W
  VirtualFreeEx : W → Nat → Nat → Nat → Nat → Bool × W
  GetLastError : W → Nat

/-- The world together with the foreign calls made so far, oldest first. -/
structure Sys (W : Type) where
  world : W
  calls : List Call
deriving DecidableEq, Repr

/-! ## `Alloc` and `Free` -/

/-- Source `PVOID Alloc(Process const& process, SIZE_T size)`. -/
def Alloc {W : Type} (pf : Platform W) (process : Process) (size : Nat) (s : Sys W) :
    Except Error Nat × Sys W :=
  let r := pf.VirtualAllocEx s.world process.GetHandle 0 size (MEM_COMMIT ||| MEM_RESERVE)
    PAGE_EXECUTE_READWRITE
  let s1 : Sys W :=
    { world := r.2
      calls := s.calls ++ [Call.VirtualAllocEx process.GetHandle 0 size
        (MEM_COMMIT ||| MEM_RESERVE) PAGE_EXECUTE_READWRITE] }
  let address := r.1
  if address = 0 then
    let last_error := pf.GetLastError s1.world
    (Except.error { ErrorString := "VirtualAllocEx failed.", ErrorCodeWinLast := last_error }, s1)
  else
    (Except.ok address, s1)

/-- Source `void Free(Process const& process, LPVOID address)`. -/
def Free {W : Type} (pf : Platform W) (process : Process) (address : Nat) (s : Sys W) :
    Except Error Unit × Sys W :=
  let r := pf.VirtualFreeEx s.world process.GetHandle address 0 MEM_RELEASE
  let s1 : Sys W :=
    { world := r.2
      calls := s.calls ++ [Call.VirtualFreeEx process.GetHandle address 0 MEM_RELEASE] }
  if r.1 = false then
    let last_error := pf.GetLastError s1.world
    (Except.error { ErrorString := "VirtualFreeEx failed.", ErrorCodeWinLast := last_error }, s1)
  else
    (Except.ok (), s1)

/-! ## `Allocator` -/

/-- The data members of `class Allocator`: `process_`, `base_`, `size_`. -/
structure Allocator where
  process_ : Option Process
  base_ : Nat
  size_ : Nat
deriving DecidableEq, Repr

/-- The state `(nullptr, nullptr, 0)`. -/
def Allocator.empty : Allocator := { process_ := none, base_ := 0, size_ := 0 }

/-- Source `Allocator::Allocator(Process const* process, SIZE_T size)`.
The result is `none` when `process` is the null pointer: `*process` is then undefined. -/
def Allocator.ctor {W : Type} (pf : Platform W) (process : Option Process) (size : Nat)
    (s : Sys W) : Option (Except Error Allocator × Sys W) :=
  match process with
  | none => none
  | some p =>
    -- process_(process), base_(Alloc(*process, size)), size_(size)
    match Alloc pf p size s with
    | (Except.error e, s1) => some (Except.error e, s1)
    | (Except.ok address, s1) =>
      -- assert(process != nullptr); assert(size != 0);
      some (Except.ok { process_ := some p, base_ := address, size_ := size }, s1)

/-- Source `Allocator::Allocator(Allocator&& other)`.  Returns the new object and `other`. -/
def Allocator.ctor_move {W : Type} (other : Allocator) (s : Sys W) :
    (Allocator × Allocator) × Sys W :=
  let this : Allocator :=
    { process_ := other.process_, base_ := other.base_, size_ := other.size_ }
  let other1 : Allocator := { other with process_ := none }
  let other2 : Allocator := { other1 with base_ := 0 }
  let other3 : Allocator := { other2 with size_ := 0 }
  ((this, other3), s)

/-- Source `void Allocator::Free()`. -/
def Allocator.Free {W : Type} (pf : Platform W) (this : Allocator) (s : Sys W) :
    Except Error Unit × Allocator × Sys W :=
  match this.process_ with
  | none => (Except.ok (), this, s)
  | some process =>
    -- assert(base_ != nullptr); assert(size_ != 0);
    match hadesmem.Free pf process this.base_ s with
    | (Except.error e, s1) => (Except.error e, this, s1)
    | (Except.ok (), s1) =>
      let this1 : Allocator := { this with process_ := none }
      let this2 : Allocator := { this1 with base_ := 0 }
      let this3 : Allocator := { this2 with size_ := 0 }
      (Except.ok (), this3, s1)

/-- Source `PVOID Allocator::GetBase() const`. -/
def Allocator.GetBase (this : Allocator) : Nat := this.base_

/-- Source `SIZE_T Allocator::GetSize() const`. -/
def Allocator.GetSize (this : Allocator) : Nat := this.size_

/-- How a call of a function with asserts ends: it returns, an exception leaves it, or a
failed `assert` aborts the program. -/
inductive Exit where
  | returned
  | threw (e : Error)
  | aborted
deriving DecidableEq, Repr

/-- The C macro `assert(cond)`: it stops the program when `NDEBUG` is not defined and `cond`
is false, and does nothing otherwise. -/
def assertFails (NDEBUG : Bool) (cond : Bool) : Bool := !NDEBUG && !cond

/-- Source `void Allocator::FreeUnchecked()`: `try { Free(); } catch (std::exception const&)`.
In `assert(e.what() && false)` the condition is `false` whatever `e.what()` is. -/
def Allocator.FreeUnchecked {W : Type} (NDEBUG : Bool) (pf : Platform W) (this : Allocator)
    (s : Sys W) : Exit × Allocator × Sys W :=
  match Allocator.Free pf this s with
  | (Except.ok (), this1, s1) => (Exit.returned, this1, s1)
  | (Except.error _e, this1, s1) =>
    -- assert(e.what() && false);
    if assertFails NDEBUG false then
      (Exit.aborted, this1, s1)
    else
      let this2 : Allocator := { this1 with process_ := none }
      let this3 : Allocator := { this2 with base_ := 0 }
      let this4 : Allocator := { this3 with size_ := 0 }
      (Exit.returned, this4, s1)

/-- Source `Allocator& Allocator::operator=(Allocator&& other)`, for `other` an object other
than `*this`.  Returns `*this` and `other`. -/
def Allocator.operator_assign {W : Type} (NDEBUG : Bool) (pf : Platform W)
    (this other : Allocator) (s : Sys W) : Exit × (Allocator × Allocator) × Sys W :=
  match Allocator.FreeUnchecked NDEBUG pf this s with
  -- an exception out of `FreeUnchecked` would pass through; `FreeUnchecked` lets none out
  | (Exit.threw e, this1, s1) => (Exit.threw e, (this1, other), s1)
  | (Exit.aborted, this1, s1) => (Exit.aborted, (this1, other), s1)
  | (Exit.returned, this1, s1) =>
    -- assert(process_ == nullptr);
    if assertFails NDEBUG (this1.process_ == none) then
      (Exit.aborted, (this1, other), s1)
    -- assert(base_ == nullptr);
    else if assertFails NDEBUG (this1.base_ == 0) then
      (Exit.aborted, (this1, other), s1)
    -- assert(size_ == 0);
    else if assertFails NDEBUG (this1.size_ == 0) then
      (Exit.aborted, (this1, other), s1)
    else
      let this2 : Allocator := { this1 with process_ := other.process_ }
      let this3 : Allocator := { this2 with base_ := other.base_ }
      let this4 : Allocator := { this3 with size_ := other.size_ }
      let other1 : Allocator := { other with process_ := none }
      let other2 : Allocator := { other1 with base_ := 0 }
      let other3 : Allocator := { other2 with size_ := 0 }
      (Exit.returned, (this4, other3), s1)

/-- Source `Allocator::~Allocator()`.  Returns the members as the body leaves them. -/
def Allocator.dtor {W : Type} (NDEBUG : Bool) (pf : Platform W) (this : Allocator)
    (s : Sys W) : Exit × Allocator × Sys W :=
  Allocator.FreeUnchecked NDEBUG pf this s

/-- Source `operator==(Allocator const&, Allocator const&)`. -/
def operator_eq (lhs rhs : Allocator) : Bool := lhs.GetBase == rhs.GetBase

/-- Source `operator!=`. -/
def operator_ne (lhs rhs : Allocator) : Bool := !(operator_eq lhs rhs)

/-- Source `operator<`. -/
def operator_lt (lhs rhs : Allocator) : Bool := decide (lhs.GetBase < rhs.GetBase)

/-- Source `operator<=`. -/
def operator_le (lhs rhs : Allocator) : Bool := decide (lhs.GetBase ≤ rhs.GetBase)

/-- Source `operator>`. -/
def operator_gt (lhs rhs : Allocator) : Bool := decide (lhs.GetBase > rhs.GetBase)

/-- Source `operator>=`. -/
def operator_ge (lhs rhs : Allocator) : Bool := decide (lhs.GetBase ≥ rhs.GetBase)

/-! ## Predicates on allocators -/

/-- All three members are empty. -/
def Allocator.IsEmpty (a : Allocator) : Prop :=
  a.process_ = none ∧ a.base_ = 0 ∧ a.size_ = 0

/-- All three members are non-empty. -/
def Allocator.IsOwning (a : Allocator) : Prop :=
  a.process_ ≠ none ∧ a.base_ ≠ 0 ∧ a.size_ ≠ 0

/-- The members are all empty or all non-empty. -/
def Allocator.Inv (a : Allocator) : Prop := a.IsEmpty ∨ a.IsOwning

instance (a : Allocator) : Decidable a.IsEmpty := by
  unfold Allocator.IsEmpty; infer_instance

instance (a : Allocator) : Decidable a.IsOwning := by
  unfold Allocator.IsOwning; infer_instance

instance (a : Allocator) : Decidable a.Inv := by
  unfold Allocator.Inv; infer_instance

/-! ## Concrete platforms and states used at the witnesses -/

/-- A platform on which every allocation returns `0x10000` and every free succeeds. -/
def okPlatform : Platform Nat where
  VirtualAllocEx := fun w _ _ _ _ _ => (0x10000, w)
  VirtualFreeEx := fun w _ _ _ _ => (true, w)
  GetLastError := fun w => w

/-- A platform on which every allocation fails with last error 8 (not enough memory) and
every free fails with last error 5 (access denied). -/
def failPlatform : Platform Nat where
  VirtualAllocEx := fun _ _ _ _ _ _ => (0, 8)
  VirtualFreeEx := fun _ _ _ _ _ => (false, 5)
  GetLastError := fun w => w

/-- A process with handle 7 and id 42. -/
def demoProcess : Process := { handle_ := 7, id_ := 42 }

/-- An owning allocator: 4096 bytes at `0x10000` in `demoProcess`. -/
def demoAllocator : Allocator := { process_ := some demoProcess, base_ := 0x10000, size_ := 4096 }

/-- A second owning allocator: 8192 bytes at `0x20000` in `demoProcess`. -/
def demoAllocator2 : Allocator :=
  { process_ := some demoProcess, base_ := 0x20000, size_ := 8192 }

/-- The initial system state: last error 0, no foreign call made yet. -/
def sys0 : Sys Nat := { world := 0, calls := [] }

/-! ## Region enumeration

`hadesmem/region.hpp` and `hadesmem/region_list.hpp` are not among the sources; only their
test `tests/region_list.cpp` is.  The definitions of this section follow the specification's
data model (section 3) and iterator protocol (section 4.3). -/

/-- Modelled from the spec: the `RegionDescriptor` of `hadesmem/region.hpp`, which is not among
the sources: "base address, allocation-group base address, size in bytes, protection flags,
region state, region type". -/
structure Region where
  base_ : Nat
  alloc_base_ : Nat
  size_ : Nat
  protect_ : Nat
  state_ : Nat
  type_ : Nat
deriving DecidableEq, Repr

/-- Modelled from the spec: the "query region at address X" primitive of one foreign process,
which is not among the sources, with the maximum representable address of its address space.
A query returns a descriptor or fails with `QueryFailed` carrying the platform code. -/
structure AddressSpace where
  addr_max : Nat
  query : Nat → Except Error Region

/-- A 32-bit address space whose layout changes between the first and the second query of a
walk.  The query at 0 reports the free range `[0, 0x30000)`; by the time `0x30000` is queried
a block `[0x20000, 0x40000)` has been committed, and the free range below it ends at
`0x20000`; above the block the space is free up to the top.  Every query succeeds and reports
a region of non-zero size that contains the queried address, and the query at the base of
each reported region reports that region again.  (The specification: "the address space may
change between queries"; results "reflect the address space at query time, not at
enumeration-start time".) -/
def shiftingSpace : AddressSpace where
  addr_max := 0xFFFFFFFF
  query := fun a =>
    if a < 0x20000 then
      Except.ok { base_ := 0, alloc_base_ := 0, size_ := 0x30000, protect_ := 0x01,
                  state_ := 0x10000, type_ := 0 }
    else if a < 0x40000 then
      Except.ok { base_ := 0x20000, alloc_base_ := 0x20000, size_ := 0x20000, protect_ := 0x40,
                  state_ := 0x1000, type_ := 0x20000 }
    else
      Except.ok { base_ := 0x40000, alloc_base_ := 0, size_ := 0xFFFC0000, protect_ := 0x01,
                  state_ := 0x10000, type_ := 0 }

/-- The system state after one `VirtualFreeEx(handle, base, 0, MEM_RELEASE)`. -/
def afterFree {W : Type} (pf : Platform W) (p : Process) (base : Nat) (s : Sys W) : Sys W :=
  { world := (pf.VirtualFreeEx s.world p.GetHandle base 0 MEM_RELEASE).2
    calls := s.calls ++ [Call.VirtualFreeEx p.GetHandle base 0 MEM_RELEASE] }

/-- The system state after one `VirtualAllocEx` as `Alloc` issues it. -/
def afterAlloc {W : Type} (pf : Platform W) (p : Process) (size : Nat) (s : Sys W) : Sys W :=
  { world := (pf.VirtualAllocEx s.world p.GetHandle 0 size (MEM_COMMIT ||| MEM_RESERVE)
      PAGE_EXECUTE_READWRITE).2
    calls := s.calls ++ [Call.VirtualAllocEx p.GetHandle 0 size (MEM_COMMIT ||| MEM_RESERVE)
      PAGE_EXECUTE_READWRITE] }

theorem Free_none {W : Type} (pf : Platform W) (a : Allocator) (s : Sys W)
    (h : a.process_ = none) : Allocator.Free pf a s = (Except.ok (), a, s) := by
  unfold Allocator.Free
  rw [h]

theorem Free_some_ok {W : Type} (pf : Platform W) (a : Allocator) (s : Sys W) (p : Process)
    (h : a.process_ = some p)
    (hok : (pf.VirtualFreeEx s.world p.GetHandle a.base_ 0 MEM_RELEASE).1 = true) :
    Allocator.Free pf a s = (Except.ok (), Allocator.empty, afterFree pf p a.base_ s) := by
  unfold Allocator.Free
  rw [h]
  simp [hadesmem.Free, hok, afterFree, Allocator.empty]

theorem Free_some_fail {W : Type} (pf : Platform W) (a : Allocator) (s : Sys W) (p : Process)
    (h : a.process_ = some p)
    (hfail : (pf.VirtualFreeEx s.world p.GetHandle a.base_ 0 MEM_RELEASE).1 = false) :
    Allocator.Free pf a s =
      (Except.error
        { ErrorString := "VirtualFreeEx failed."
          ErrorCodeWinLast := pf.GetLastError (afterFree pf p a.base_ s).world },
        a, afterFree pf p a.base_ s) := by
  unfold Allocator.Free
  rw [h]
  simp [hadesmem.Free, hfail, afterFree]

theorem FreeUnchecked_none {W : Type} (NDEBUG : Bool) (pf : Platform W) (a : Allocator)
    (s : Sys W) (h : a.process_ = none) :
    Allocator.FreeUnchecked NDEBUG pf a s = (Exit.returned, a, s) := by
  unfold Allocator.FreeUnchecked
  rw [Free_none pf a s h]

theorem FreeUnchecked_some_ok {W : Type} (NDEBUG : Bool) (pf : Platform W) (a : Allocator)
    (s : Sys W) (p : Process) (h : a.process_ = some p)
    (hok : (pf.VirtualFreeEx s.world p.GetHandle a.base_ 0 MEM_RELEASE).1 = true) :
    Allocator.FreeUnchecked NDEBUG pf a s =
      (Exit.returned, Allocator.empty, afterFree pf p a.base_ s) := by
  unfold Allocator.FreeUnchecked
  rw [Free_some_ok pf a s p h hok]

theorem FreeUnchecked_some_fail_ndebug {W : Type} (pf : Platform W) (a : Allocator)
    (s : Sys W) (p : Process) (h : a.process_ = some p)
    (hfail : (pf.VirtualFreeEx s.world p.GetHandle a.base_ 0 MEM_RELEASE).1 = false) :
    Allocator.FreeUnchecked true pf a s =
      (Exit.returned, Allocator.empty, afterFree pf p a.base_ s) := by
  unfold Allocator.FreeUnchecked
  rw [Free_some_fail pf a s p h hfail]
  rfl

theorem FreeUnchecked_some_fail_debug {W : Type} (pf : Platform W) (a : Allocator)
    (s : Sys W) (p : Process) (h : a.process_ = some p)
    (hfail : (pf.VirtualFreeEx s.world p.GetHandle a.base_ 0 MEM_RELEASE).1 = false) :
    Allocator.FreeUnchecked false pf a s = (Exit.aborted, a, afterFree pf p a.base_ s) := by
  unfold Allocator.FreeUnchecked
  rw [Free_some_fail pf a s p h hfail]
  rfl

theorem FreeUnchecked_some_sys {W : Type} (NDEBUG : Bool) (pf : Platform W) (a : Allocator)
    (s : Sys W) (p : Process) (h : a.process_ = some p) :
    (Allocator.FreeUnchecked NDEBUG pf a s).2.2 = afterFree pf p a.base_ s := by
  cases hr : (pf.VirtualFreeEx s.world p.GetHandle a.base_ 0 MEM_RELEASE).1 with
  | true => rw [FreeUnchecked_some_ok NDEBUG pf a s p h hr]
  | false =>
    cases NDEBUG with
    | true => rw [FreeUnchecked_some_fail_ndebug pf a s p h hr]
    | false => rw [FreeUnchecked_some_fail_debug pf a s p h hr]

theorem FreeUnchecked_not_threw {W : Type} (NDEBUG : Bool) (pf : Platform W) (a : Allocator)
    (s : Sys W) (e : Error) : (Allocator.FreeUnchecked NDEBUG pf a s).1 ≠ Exit.threw e := by
  cases hp : a.process_ with
  | none => rw [FreeUnchecked_none NDEBUG pf a s hp]; intro h; cases h
  | some p =>
    cases hr : (pf.VirtualFreeEx s.world p.GetHandle a.base_ 0 MEM_RELEASE).1 with
    | true => rw [FreeUnchecked_some_ok NDEBUG pf a s p hp hr]; intro h; cases h
    | false =>
      cases NDEBUG with
      | true => rw [FreeUnchecked_some_fail_ndebug pf a s p hp hr]; intro h; cases h
      | false => rw [FreeUnchecked_some_fail_debug pf a s p hp hr]; intro h; cases h

theorem operator_assign_of_returned_empty {W : Type} (NDEBUG : Bool) (pf : Platform W)
    (this other : Allocator) (s s1 : Sys W)
    (h : Allocator.FreeUnchecked NDEBUG pf this s = (Exit.returned, Allocator.empty, s1)) :
    Allocator.operator_assign NDEBUG pf this other s =
      (Exit.returned, (other, Allocator.empty), s1) := by
  unfold Allocator.operator_assign
  rw [h]
  cases NDEBUG <;> rfl

theorem operator_assign_of_aborted {W : Type} (NDEBUG : Bool) (pf : Platform W)
    (this other this1 : Allocator) (s s1 : Sys W)
    (h : Allocator.FreeUnchecked NDEBUG pf this s = (Exit.aborted, this1, s1)) :
    Allocator.operator_assign NDEBUG pf this other s =
      (Exit.aborted, (this1, other), s1) := by
  unfold Allocator.operator_assign
  rw [h]

/-- The conditions asserted in `Allocator::Free` (`base_ != nullptr`, `size_ != 0`) hold
whenever the invariant does and `process_` is not null. -/
theorem Free_asserts_hold (a : Allocator) (p : Process) (hinv : a.Inv)
    (hp : a.process_ = some p) : a.base_ ≠ 0 ∧ a.size_ ≠ 0 := by
  cases hinv with
  | inl he =>
    have := he.1
    rw [hp] at this
    cases this
  | inr ho => exact ⟨ho.2.1, ho.2.2⟩

theorem empty_of_IsEmpty (a : Allocator) (h : a.IsEmpty) : a = Allocator.empty := by
  cases a
  obtain ⟨h1, h2, h3⟩ := h
  simp only [Allocator.empty] at *
  subst h1 h2 h3
  rfl

theorem Inv_empty : Allocator.empty.Inv := Or.inl ⟨rfl, rfl, rfl⟩

/-! ## `Allocator::Free` when the foreign free fails -/

/-- C1, as stated, fails: on a platform whose `VirtualFreeEx` fails, `Free` on the owning
`demoAllocator` throws and leaves all three members as they were, so the allocator is not
empty, and both a later `Free` and the destructor (with asserts compiled out or not) call
`VirtualFreeEx` on that base again. -/
theorem Free_failure_not_emptied :
    demoAllocator.IsOwning ∧
    (failPlatform.VirtualFreeEx sys0.world demoProcess.GetHandle demoAllocator.base_ 0
      MEM_RELEASE).1 = false ∧
    (Allocator.Free failPlatform demoAllocator sys0).1 =
      Except.error { ErrorString := "VirtualFreeEx failed.", ErrorCodeWinLast := 5 } ∧
    ¬ (Allocator.Free failPlatform demoAllocator sys0).2.1.IsEmpty ∧
    (Allocator.Free failPlatform (Allocator.Free failPlatform demoAllocator sys0).2.1
      (Allocator.Free failPlatform demoAllocator sys0).2.2).2.2.calls =
      [Call.VirtualFreeEx 7 0x10000 0 MEM_RELEASE, Call.VirtualFreeEx 7 0x10000 0 MEM_RELEASE] ∧
    (Allocator.dtor true failPlatform (Allocator.Free failPlatform demoAllocator sys0).2.1
      (Allocator.Free failPlatform demoAllocator sys0).2.2).2.2.calls =
      [Call.VirtualFreeEx 7 0x10000 0 MEM_RELEASE, Call.VirtualFreeEx 7 0x10000 0 MEM_RELEASE] ∧
    (Allocator.dtor false failPlatform (Allocator.Free failPlatform demoAllocator sys0).2.1
      (Allocator.Free failPlatform demoAllocator sys0).2.2).2.2.calls =
      [Call.VirtualFreeEx 7 0x10000 0 MEM_RELEASE, Call.VirtualFreeEx 7 0x10000 0 MEM_RELEASE] := by
  refine ⟨by decide, rfl, rfl, by decide, rfl, rfl, rfl⟩

/-- C1, amended: for an owning allocator whose `VirtualFreeEx` call fails, `Free` makes that one
call, throws an `Error` carrying `GetLastError()` as read after the call, and leaves
`process_`, `base_` and `size_` unchanged (the allocator still owns); a later `Free` or
destructor run on it (with asserts compiled out or not) therefore calls `VirtualFreeEx` on the
same process and base again. -/
theorem Free_failure_keeps_members {W : Type} (pf : Platform W) (a : Allocator) (s : Sys W)
    (p : Process) (hp : a.process_ = some p) (hown : a.IsOwning)
    (hfail : (pf.VirtualFreeEx s.world p.GetHandle a.base_ 0 MEM_RELEASE).1 = false) :
    (Allocator.Free pf a s).1 =
      Except.error
        { ErrorString := "VirtualFreeEx failed."
          ErrorCodeWinLast :=
            pf.GetLastError (pf.VirtualFreeEx s.world p.GetHandle a.base_ 0 MEM_RELEASE).2 } ∧
    (Allocator.Free pf a s).2.1 = a ∧
    (Allocator.Free pf a s).2.1.IsOwning ∧
    (Allocator.Free pf a s).2.2.calls =
      s.calls ++ [Call.VirtualFreeEx p.GetHandle a.base_ 0 MEM_RELEASE] ∧
    (∀ s2 : Sys W, (Allocator.Free pf (Allocator.Free pf a s).2.1 s2).2.2.calls =
      s2.calls ++ [Call.VirtualFreeEx p.GetHandle a.base_ 0 MEM_RELEASE]) ∧
    (∀ (NDEBUG : Bool) (s2 : Sys W),
      (Allocator.dtor NDEBUG pf (Allocator.Free pf a s).2.1 s2).2.2.calls =
        s2.calls ++ [Call.VirtualFreeEx p.GetHandle a.base_ 0 MEM_RELEASE]) := by
  rw [Free_some_fail pf a s p hp hfail]
  refine ⟨rfl, rfl, hown, rfl, ?_, ?_⟩
  · intro s2
    show (Allocator.Free pf a s2).2.2.calls = _
    cases hr : (pf.VirtualFreeEx s2.world p.GetHandle a.base_ 0 MEM_RELEASE).1 with
    | true => rw [Free_some_ok pf a s2 p hp hr]; rfl
    | false => rw [Free_some_fail pf a s2 p hp hr]; rfl
  · intro NDEBUG s2
    show (Allocator.FreeUnchecked NDEBUG pf a s2).2.2.calls = _
    rw [FreeUnchecked_some_sys NDEBUG pf a s2 p hp]
    rfl

/-- The amended C1 at `failPlatform`, `demoAllocator`, `sys0`. -/
theorem Free_failure_keeps_members_witness :
    (Allocator.Free failPlatform demoAllocator sys0).1 =
      Except.error { ErrorString := "VirtualFreeEx failed.", ErrorCodeWinLast := 5 } ∧
    (Allocator.Free failPlatform demoAllocator sys0).2.1 = demoAllocator :=
  have h := Free_failure_keeps_members failPlatform demoAllocator sys0 demoProcess rfl
    (by decide) rfl
  ⟨h.1, h.2.1⟩

/-! ## `Allocator::FreeUnchecked` and the destructor -/

/-- C5, as stated, fails: with asserts enabled, on a platform whose `VirtualFreeEx` fails,
`FreeUnchecked` and the destructor of the owning `demoAllocator` do not return: after the one
`VirtualFreeEx` call, `assert(e.what() && false)` aborts the program, and `process_`, `base_`
and `size_` are still set. -/
theorem FreeUnchecked_aborts_on_failed_free :
    demoAllocator.IsOwning ∧
    (failPlatform.VirtualFreeEx sys0.world demoProcess.GetHandle demoAllocator.base_ 0
      MEM_RELEASE).1 = false ∧
    Allocator.FreeUnchecked false failPlatform demoAllocator sys0 =
      (Exit.aborted, demoAllocator,
        { world := 5, calls := [Call.VirtualFreeEx 7 0x10000 0 MEM_RELEASE] }) ∧
    (Allocator.FreeUnchecked false failPlatform demoAllocator sys0).1 ≠ Exit.returned ∧
    ¬ (Allocator.FreeUnchecked false failPlatform demoAllocator sys0).2.1.IsEmpty ∧
    Allocator.dtor false failPlatform demoAllocator sys0 =
      (Exit.aborted, demoAllocator,
        { world := 5, calls := [Call.VirtualFreeEx 7 0x10000 0 MEM_RELEASE] }) := by
  refine ⟨by decide, rfl, rfl, by decide, by decide, rfl⟩

/-- C5, amended: for every allocator state (members all empty or all non-empty) and every
behaviour of `VirtualFreeEx`, `FreeUnchecked`, and the destructor, which is `FreeUnchecked`,
let no exception reach the
caller; on an empty allocator they return at once, with no foreign call and the allocator
still empty; on an allocator with a non-null `process_` they make exactly one foreign call,
`VirtualFreeEx(process_->GetHandle(), base_, 0, MEM_RELEASE)`; when that call succeeds, or
when it fails and asserts are compiled out (`NDEBUG`), they return normally and leave the
allocator empty; when that call fails and asserts are enabled, `assert(e.what() && false)`
aborts the program with the members unchanged. -/
theorem FreeUnchecked_outcome {W : Type} (NDEBUG : Bool) (pf : Platform W) (a : Allocator)
    (s : Sys W) (_hinv : a.Inv) :
    (∀ e : Error, (Allocator.FreeUnchecked NDEBUG pf a s).1 ≠ Exit.threw e) ∧
    (a.IsEmpty →
      Allocator.FreeUnchecked NDEBUG pf a s = (Exit.returned, Allocator.empty, s)) ∧
    (∀ p : Process, a.process_ = some p →
      (Allocator.FreeUnchecked NDEBUG pf a s).2.2.calls =
        s.calls ++ [Call.VirtualFreeEx p.GetHandle a.base_ 0 MEM_RELEASE] ∧
      (Allocator.FreeUnchecked NDEBUG pf a s).2.2.world =
        (pf.VirtualFreeEx s.world p.GetHandle a.base_ 0 MEM_RELEASE).2) ∧
    (∀ p : Process, a.process_ = some p →
      (pf.VirtualFreeEx s.world p.GetHandle a.base_ 0 MEM_RELEASE).1 = true ∨ NDEBUG = true →
      (Allocator.FreeUnchecked NDEBUG pf a s).1 = Exit.returned ∧
      (Allocator.FreeUnchecked NDEBUG pf a s).2.1 = Allocator.empty) ∧
    (∀ p : Process, a.process_ = some p →
      (pf.VirtualFreeEx s.world p.GetHandle a.base_ 0 MEM_RELEASE).1 = false →
      NDEBUG = false →
      (Allocator.FreeUnchecked NDEBUG pf a s).1 = Exit.aborted ∧
      (Allocator.FreeUnchecked NDEBUG pf a s).2.1 = a) ∧
    Allocator.dtor NDEBUG pf a s = Allocator.FreeUnchecked NDEBUG pf a s := by
  refine ⟨FreeUnchecked_not_threw NDEBUG pf a s, ?_, ?_, ?_, ?_, rfl⟩
  · intro he
    rw [FreeUnchecked_none NDEBUG pf a s he.1, empty_of_IsEmpty a he]
  · intro p hp
    rw [FreeUnchecked_some_sys NDEBUG pf a s p hp]
    exact ⟨rfl, rfl⟩
  · intro p hp h
    cases hr : (pf.VirtualFreeEx s.world p.GetHandle a.base_ 0 MEM_RELEASE).1 with
    | true =>
      rw [FreeUnchecked_some_ok NDEBUG pf a s p hp hr]
      exact ⟨rfl, rfl⟩
    | false =>
      rw [hr] at h
      cases h with
      | inl h => cases h
      | inr h =>
        subst h
        rw [FreeUnchecked_some_fail_ndebug pf a s p hp hr]
        exact ⟨rfl, rfl⟩
  · intro p hp hr hd
    subst hd
    rw [FreeUnchecked_some_fail_debug pf a s p hp hr]
    exact ⟨rfl, rfl⟩

/-- The amended C5 at concrete inputs: the empty allocator; an owning allocator whose free
fails, with asserts compiled out and with asserts enabled. -/
theorem FreeUnchecked_outcome_witness :
    Allocator.empty.Inv ∧
    demoAllocator.Inv ∧
    Allocator.empty.IsEmpty ∧
    Allocator.FreeUnchecked false failPlatform Allocator.empty sys0 =
      (Exit.returned, Allocator.empty, sys0) ∧
    ((Allocator.FreeUnchecked true failPlatform demoAllocator sys0).1 = Exit.returned ∧
      (Allocator.FreeUnchecked true failPlatform demoAllocator sys0).2.1 = Allocator.empty) ∧
    ((Allocator.FreeUnchecked false failPlatform demoAllocator sys0).1 = Exit.aborted ∧
      (Allocator.FreeUnchecked false failPlatform demoAllocator sys0).2.1 = demoAllocator) ∧
    (Allocator.FreeUnchecked false okPlatform demoAllocator sys0).2.1 = Allocator.empty :=
  ⟨by decide, by decide, by decide,
    (FreeUnchecked_outcome false failPlatform Allocator.empty sys0 (by decide)).2.1
      (by decide),
    (FreeUnchecked_outcome true failPlatform demoAllocator sys0 (by decide)).2.2.2.1
      demoProcess rfl (Or.inr rfl),
    (FreeUnchecked_outcome false failPlatform demoAllocator sys0 (by decide)).2.2.2.2.1
      demoProcess rfl rfl rfl,
    ((FreeUnchecked_outcome false okPlatform demoAllocator sys0 (by decide)).2.2.2.1
      demoProcess rfl (Or.inl rfl)).2⟩

/-! ## `Allocator::Free` on an empty allocator, and called twice -/

/-- C9: on an empty allocator `Free` returns normally, makes no foreign call (world and call
list are unchanged) and leaves `process_`, `base_` and `size_` as they were. -/
theorem Free_empty_noop {W : Type} (pf : Platform W) (a : Allocator) (s : Sys W)
    (hempty : a.IsEmpty) :
    (Allocator.Free pf a s).1 = Except.ok () ∧
    (Allocator.Free pf a s).2.2 = s ∧
    (Allocator.Free pf a s).2.1 = a ∧
    (Allocator.Free pf a s).2.1.IsEmpty := by
  rw [Free_none pf a s hempty.1]
  exact ⟨rfl, rfl, rfl, hempty⟩

/-- C9 at the empty allocator on a platform whose free would fail. -/
theorem Free_empty_noop_witness :
    Allocator.empty.IsEmpty ∧
    (Allocator.Free failPlatform Allocator.empty sys0).1 = Except.ok () ∧
    (Allocator.Free failPlatform Allocator.empty sys0).2.2 = sys0 :=
  ⟨by decide,
    (Free_empty_noop failPlatform Allocator.empty sys0 (by decide)).1,
    (Free_empty_noop failPlatform Allocator.empty sys0 (by decide)).2.1⟩

/-- C6, as stated, fails: on a platform whose `VirtualFreeEx` fails, the first `Free` on the
owning `demoAllocator` throws and keeps the members, and the second `Free` throws too, after
passing the same base `0x10000` to `VirtualFreeEx` a second time. -/
theorem Free_twice_second_fails :
    (Allocator.Free failPlatform demoAllocator sys0).1 =
      Except.error { ErrorString := "VirtualFreeEx failed.", ErrorCodeWinLast := 5 } ∧
    (Allocator.Free failPlatform (Allocator.Free failPlatform demoAllocator sys0).2.1
      (Allocator.Free failPlatform demoAllocator sys0).2.2).1 =
      Except.error { ErrorString := "VirtualFreeEx failed.", ErrorCodeWinLast := 5 } ∧
    (Allocator.Free failPlatform demoAllocator sys0).2.2.calls =
      [Call.VirtualFreeEx 7 0x10000 0 MEM_RELEASE] ∧
    (Allocator.Free failPlatform (Allocator.Free failPlatform demoAllocator sys0).2.1
      (Allocator.Free failPlatform demoAllocator sys0).2.2).2.2.calls =
      [Call.VirtualFreeEx 7 0x10000 0 MEM_RELEASE, Call.VirtualFreeEx 7 0x10000 0 MEM_RELEASE] :=
  ⟨rfl, rfl, rfl, rfl⟩

/-- C6, amended: for every allocator state and every behaviour of `VirtualFreeEx`, when `Free`
is called twice in a row and the first call does not fail, the second call does not fail and
makes no foreign call at all (the system state and the allocator are as the first call left
them), so no base is passed to `VirtualFreeEx` twice. -/
theorem Free_twice_after_success {W : Type} (pf : Platform W) (a : Allocator) (s : Sys W)
    (hfirst : (Allocator.Free pf a s).1 = Except.ok ()) :
    (Allocator.Free pf (Allocator.Free pf a s).2.1 (Allocator.Free pf a s).2.2).1 =
      Except.ok () ∧
    (Allocator.Free pf (Allocator.Free pf a s).2.1 (Allocator.Free pf a s).2.2).2.2 =
      (Allocator.Free pf a s).2.2 ∧
    (Allocator.Free pf (Allocator.Free pf a s).2.1 (Allocator.Free pf a s).2.2).2.1 =
      (Allocator.Free pf a s).2.1 := by
  have hnone : (Allocator.Free pf a s).2.1.process_ = none := by
    cases hp : a.process_ with
    | none => rw [Free_none pf a s hp]; exact hp
    | some p =>
      cases hr : (pf.VirtualFreeEx s.world p.GetHandle a.base_ 0 MEM_RELEASE).1 with
      | true => rw [Free_some_ok pf a s p hp hr]; rfl
      | false =>
        rw [Free_some_fail pf a s p hp hr] at hfirst
        cases hfirst
  rw [Free_none pf _ _ hnone]
  exact ⟨rfl, rfl, rfl⟩

/-- The amended C6 at an owning allocator whose first free succeeds. -/
theorem Free_twice_after_success_witness :
    (Allocator.Free okPlatform demoAllocator sys0).1 = Except.ok () ∧
    (Allocator.Free okPlatform (Allocator.Free okPlatform demoAllocator sys0).2.1
      (Allocator.Free okPlatform demoAllocator sys0).2.2).1 = Except.ok () ∧
    (Allocator.Free okPlatform (Allocator.Free okPlatform demoAllocator sys0).2.1
      (Allocator.Free okPlatform demoAllocator sys0).2.2).2.2.calls =
      [Call.VirtualFreeEx 7 0x10000 0 MEM_RELEASE] :=
  have h := Free_twice_after_success okPlatform demoAllocator sys0 rfl
  ⟨rfl, h.1, by rw [h.2.1]; rfl⟩

/-! ## Construction and moves -/

/-- C2: for a non-null process and a non-zero size the constructor makes exactly one foreign
call, `VirtualAllocEx(handle, nullptr, size, MEM_COMMIT | MEM_RESERVE,
PAGE_EXECUTE_READWRITE)`; when it returns a non-null address the new allocator holds that
process, that address and the requested size; when it returns null the constructor throws an
`Error` carrying `GetLastError()` as read after the call and no allocator is produced. -/
theorem ctor_spec {W : Type} (pf : Platform W) (p : Process) (size : Nat) (s : Sys W)
    (_hsize : size ≠ 0) :
    (∃ r, Allocator.ctor pf (some p) size s = some r ∧
      r.2.world = (pf.VirtualAllocEx s.world p.GetHandle 0 size (MEM_COMMIT ||| MEM_RESERVE)
        PAGE_EXECUTE_READWRITE).2 ∧
      r.2.calls = s.calls ++ [Call.VirtualAllocEx p.GetHandle 0 size 0x3000 0x40]) ∧
    ((pf.VirtualAllocEx s.world p.GetHandle 0 size (MEM_COMMIT ||| MEM_RESERVE)
        PAGE_EXECUTE_READWRITE).1 ≠ 0 →
      ∃ s1, Allocator.ctor pf (some p) size s =
        some (Except.ok
          { process_ := some p
            base_ := (pf.VirtualAllocEx s.world p.GetHandle 0 size (MEM_COMMIT ||| MEM_RESERVE)
              PAGE_EXECUTE_READWRITE).1
            size_ := size }, s1)) ∧
    ((pf.VirtualAllocEx s.world p.GetHandle 0 size (MEM_COMMIT ||| MEM_RESERVE)
        PAGE_EXECUTE_READWRITE).1 = 0 →
      ∃ s1, Allocator.ctor pf (some p) size s =
        some (Except.error
          { ErrorString := "VirtualAllocEx failed."
            ErrorCodeWinLast := pf.GetLastError
              (pf.VirtualAllocEx s.world p.GetHandle 0 size (MEM_COMMIT ||| MEM_RESERVE)
                PAGE_EXECUTE_READWRITE).2 }, s1)) := by
  by_cases h : (pf.VirtualAllocEx s.world p.GetHandle 0 size (MEM_COMMIT ||| MEM_RESERVE)
      PAGE_EXECUTE_READWRITE).1 = 0
  · have hc : Allocator.ctor pf (some p) size s =
        some (Except.error
          { ErrorString := "VirtualAllocEx failed."
            ErrorCodeWinLast := pf.GetLastError (afterAlloc pf p size s).world },
          afterAlloc pf p size s) := by
      simp [Allocator.ctor, Alloc, h, afterAlloc]
    refine ⟨⟨_, hc, rfl, rfl⟩, fun hne => absurd h hne, fun _ => ⟨_, hc⟩⟩
  · have hc : Allocator.ctor pf (some p) size s =
        some (Except.ok
          { process_ := some p
            base_ := (pf.VirtualAllocEx s.world p.GetHandle 0 size (MEM_COMMIT ||| MEM_RESERVE)
              PAGE_EXECUTE_READWRITE).1
            size_ := size },
          afterAlloc pf p size s) := by
      simp [Allocator.ctor, Alloc, h, afterAlloc]
    refine ⟨⟨_, hc, rfl, rfl⟩, fun _ => ⟨_, hc⟩, fun h0 => absurd h0 h⟩

/-- C2 at a platform whose allocation succeeds. -/
theorem ctor_spec_witness :
    (4096 : Nat) ≠ 0 ∧
    ∃ s1, Allocator.ctor okPlatform (some demoProcess) 4096 sys0 =
      some (Except.ok demoAllocator, s1) :=
  ⟨by decide, (ctor_spec okPlatform demoProcess 4096 sys0 (by decide)).2.1 (by decide)⟩

/-- C8: move construction gives the new object the source's `process_`, `base_` and `size_`,
leaves the source at `(nullptr, nullptr, 0)`, and makes no foreign call: the world and the
list of calls are unchanged. -/
theorem ctor_move_spec {W : Type} (other : Allocator) (s : Sys W) :
    (Allocator.ctor_move other s).1.1 = other ∧
    (Allocator.ctor_move other s).1.1.process_ = other.process_ ∧
    (Allocator.ctor_move other s).1.1.base_ = other.base_ ∧
    (Allocator.ctor_move other s).1.1.size_ = other.size_ ∧
    (Allocator.ctor_move other s).1.2 = { process_ := none, base_ := 0, size_ := 0 } ∧
    (Allocator.ctor_move other s).1.2.IsEmpty ∧
    (Allocator.ctor_move other s).2 = s ∧
    (Allocator.ctor_move other s).2.calls = s.calls :=
  ⟨rfl, rfl, rfl, rfl, rfl, ⟨rfl, rfl, rfl⟩, rfl, rfl⟩

/-- C3, as stated, fails: with asserts enabled, on a platform whose `VirtualFreeEx` fails,
move assignment into the owning `demoAllocator` does not complete: after the one
`VirtualFreeEx` call on the destination's base, `assert(e.what() && false)` in
`FreeUnchecked` aborts the program; the destination still holds its own members, not the
source's, and the source is not empty. -/
theorem operator_assign_aborts_on_failed_free :
    demoAllocator.IsOwning ∧
    (failPlatform.VirtualFreeEx sys0.world demoProcess.GetHandle demoAllocator.base_ 0
      MEM_RELEASE).1 = false ∧
    Allocator.operator_assign false failPlatform demoAllocator demoAllocator2 sys0 =
      (Exit.aborted, (demoAllocator, demoAllocator2),
        { world := 5, calls := [Call.VirtualFreeEx 7 0x10000 0 MEM_RELEASE] }) ∧
    (Allocator.operator_assign false failPlatform demoAllocator demoAllocator2 sys0).1 ≠
      Exit.returned ∧
    (Allocator.operator_assign false failPlatform demoAllocator demoAllocator2 sys0).2.1.1 ≠
      demoAllocator2 ∧
    ¬ (Allocator.operator_assign false failPlatform demoAllocator demoAllocator2
      sys0).2.1.2.IsEmpty := by
  refine ⟨by decide, rfl, rfl, by decide, by decide, by decide⟩

/-- C3, amended: for every destination (members all empty or all non-empty), every source
that is another object and every behaviour of `VirtualFreeEx`, move assignment lets no
exception reach the caller; when the
destination is empty, no foreign call is made and the assignment returns with the destination
holding the source's prior members and the source empty; when the destination has a non-null
`process_`, exactly one foreign call is made, `VirtualFreeEx` on the destination's prior
process and base, before any member is overwritten; when that call succeeds, or when it fails
and asserts are compiled out (`NDEBUG`), the assignment returns with the destination holding
the source's prior members and the source empty; when that call fails and asserts are enabled,
`assert(e.what() && false)` aborts the program with both objects unchanged. -/
theorem operator_assign_outcome {W : Type} (NDEBUG : Bool) (pf : Platform W)
    (this other : Allocator) (s : Sys W) (_hinv : this.Inv) :
    (∀ e : Error, (Allocator.operator_assign NDEBUG pf this other s).1 ≠ Exit.threw e) ∧
    (this.IsEmpty →
      Allocator.operator_assign NDEBUG pf this other s =
        (Exit.returned, (other, Allocator.empty), s)) ∧
    (∀ p : Process, this.process_ = some p →
      (Allocator.operator_assign NDEBUG pf this other s).2.2.calls =
        s.calls ++ [Call.VirtualFreeEx p.GetHandle this.base_ 0 MEM_RELEASE]) ∧
    (∀ p : Process, this.process_ = some p →
      (pf.VirtualFreeEx s.world p.GetHandle this.base_ 0 MEM_RELEASE).1 = true ∨
        NDEBUG = true →
      (Allocator.operator_assign NDEBUG pf this other s).1 = Exit.returned ∧
      (Allocator.operator_assign NDEBUG pf this other s).2.1.1 = other ∧
      (Allocator.operator_assign NDEBUG pf this other s).2.1.2 = Allocator.empty) ∧
    (∀ p : Process, this.process_ = some p →
      (pf.VirtualFreeEx s.world p.GetHandle this.base_ 0 MEM_RELEASE).1 = false →
      NDEBUG = false →
      (Allocator.operator_assign NDEBUG pf this other s).1 = Exit.aborted ∧
      (Allocator.operator_assign NDEBUG pf this other s).2.1 = (this, other)) := by
  have hret : ∀ p : Process, this.process_ = some p →
      (pf.VirtualFreeEx s.world p.GetHandle this.base_ 0 MEM_RELEASE).1 = true ∨
        NDEBUG = true →
      Allocator.operator_assign NDEBUG pf this other s =
        (Exit.returned, (other, Allocator.empty), afterFree pf p this.base_ s) := by
    intro p hp h
    apply operator_assign_of_returned_empty
    cases hr : (pf.VirtualFreeEx s.world p.GetHandle this.base_ 0 MEM_RELEASE).1 with
    | true => exact FreeUnchecked_some_ok NDEBUG pf this s p hp hr
    | false =>
      rw [hr] at h
      cases h with
      | inl h => cases h
      | inr h =>
        subst h
        exact FreeUnchecked_some_fail_ndebug pf this s p hp hr
  have habort : ∀ p : Process, this.process_ = some p →
      (pf.VirtualFreeEx s.world p.GetHandle this.base_ 0 MEM_RELEASE).1 = false →
      NDEBUG = false →
      Allocator.operator_assign NDEBUG pf this other s =
        (Exit.aborted, (this, other), afterFree pf p this.base_ s) := by
    intro p hp hr hd
    subst hd
    exact operator_assign_of_aborted false pf this other this s _
      (FreeUnchecked_some_fail_debug pf this s p hp hr)
  refine ⟨?_, ?_, ?_, ?_, ?_⟩
  · intro e
    cases hp : this.process_ with
    | none =>
      by_cases he : this.IsEmpty
      · have h := operator_assign_of_returned_empty NDEBUG pf this other s s
          (by rw [FreeUnchecked_none NDEBUG pf this s hp, empty_of_IsEmpty this he])
        rw [h]
        intro hc
        cases hc
      · unfold Allocator.operator_assign
        rw [FreeUnchecked_none NDEBUG pf this s hp]
        simp only []
        split
        · intro hc; cases hc
        · split
          · intro hc; cases hc
          · split
            · intro hc; cases hc
            · intro hc; cases hc
    | some p =>
      cases hr : (pf.VirtualFreeEx s.world p.GetHandle this.base_ 0 MEM_RELEASE).1 with
      | true =>
        rw [hret p hp (Or.inl hr)]
        intro hc
        cases hc
      | false =>
        cases hd : NDEBUG with
        | true =>
          subst hd
          rw [hret p hp (Or.inr rfl)]
          intro hc
          cases hc
        | false =>
          subst hd
          rw [habort p hp hr rfl]
          intro hc
          cases hc
  · intro he
    exact operator_assign_of_returned_empty NDEBUG pf this other s s
      (by rw [FreeUnchecked_none NDEBUG pf this s he.1, empty_of_IsEmpty this he])
  · intro p hp
    cases hr : (pf.VirtualFreeEx s.world p.GetHandle this.base_ 0 MEM_RELEASE).1 with
    | true => rw [hret p hp (Or.inl hr)]; rfl
    | false =>
      cases hd : NDEBUG with
      | true => subst hd; rw [hret p hp (Or.inr rfl)]; rfl
      | false => subst hd; rw [habort p hp hr rfl]; rfl
  · intro p hp h
    rw [hret p hp h]
    exact ⟨rfl, rfl, rfl⟩
  · intro p hp hr hd
    rw [habort p hp hr hd]
    exact ⟨rfl, rfl⟩

/-- The amended C3 at concrete inputs: an empty destination; an owning destination whose
free fails, with asserts compiled out and with asserts enabled. -/
theorem operator_assign_outcome_witness :
    Allocator.empty.Inv ∧
    demoAllocator.Inv ∧
    Allocator.empty.IsEmpty ∧
    Allocator.operator_assign false failPlatform Allocator.empty demoAllocator2 sys0 =
      (Exit.returned, (demoAllocator2, Allocator.empty), sys0) ∧
    (Allocator.operator_assign true failPlatform demoAllocator demoAllocator2 sys0).2.2.calls =
      [Call.VirtualFreeEx 7 0x10000 0 MEM_RELEASE] ∧
    ((Allocator.operator_assign true failPlatform demoAllocator demoAllocator2 sys0).1 =
        Exit.returned ∧
      (Allocator.operator_assign true failPlatform demoAllocator demoAllocator2 sys0).2.1.1 =
        demoAllocator2 ∧
      (Allocator.operator_assign true failPlatform demoAllocator demoAllocator2 sys0).2.1.2 =
        Allocator.empty) ∧
    ((Allocator.operator_assign false failPlatform demoAllocator demoAllocator2 sys0).1 =
        Exit.aborted ∧
      (Allocator.operator_assign false failPlatform demoAllocator demoAllocator2 sys0).2.1 =
        (demoAllocator, demoAllocator2)) :=
  ⟨by decide, by decide, by decide,
    (operator_assign_outcome false failPlatform Allocator.empty demoAllocator2 sys0
      (by decide)).2.1 (by decide),
    (operator_assign_outcome true failPlatform demoAllocator demoAllocator2 sys0
      (by decide)).2.2.1 demoProcess rfl,
    (operator_assign_outcome true failPlatform demoAllocator demoAllocator2 sys0
      (by decide)).2.2.2.1 demoProcess rfl (Or.inr rfl),
    (operator_assign_outcome false failPlatform demoAllocator demoAllocator2 sys0
      (by decide)).2.2.2.2 demoProcess rfl rfl rfl⟩

/-! ## The all-empty-or-all-non-empty invariant -/

theorem Inv_of_Free {W : Type} (pf : Platform W) (a : Allocator) (s : Sys W) (h : a.Inv) :
    (Allocator.Free pf a s).2.1.Inv := by
  cases hp : a.process_ with
  | none => rw [Free_none pf a s hp]; exact h
  | some p =>
    cases hr : (pf.VirtualFreeEx s.world p.GetHandle a.base_ 0 MEM_RELEASE).1 with
    | true => rw [Free_some_ok pf a s p hp hr]; exact Inv_empty
    | false => rw [Free_some_fail pf a s p hp hr]; exact h

theorem FreeUnchecked_cases {W : Type} (NDEBUG : Bool) (pf : Platform W) (a : Allocator)
    (s : Sys W) (h : a.Inv) :
    (∃ s1, Allocator.FreeUnchecked NDEBUG pf a s = (Exit.returned, Allocator.empty, s1)) ∨
    (∃ s1, Allocator.FreeUnchecked NDEBUG pf a s = (Exit.aborted, a, s1)) := by
  cases hp : a.process_ with
  | none =>
    have he : a.IsEmpty := by
      cases h with
      | inl h => exact h
      | inr h => exact absurd hp h.1
    exact Or.inl ⟨s, by rw [FreeUnchecked_none NDEBUG pf a s hp, empty_of_IsEmpty a he]⟩
  | some p =>
    cases hr : (pf.VirtualFreeEx s.world p.GetHandle a.base_ 0 MEM_RELEASE).1 with
    | true => exact Or.inl ⟨_, FreeUnchecked_some_ok NDEBUG pf a s p hp hr⟩
    | false =>
      cases NDEBUG with
      | true => exact Or.inl ⟨_, FreeUnchecked_some_fail_ndebug pf a s p hp hr⟩
      | false => exact Or.inr ⟨_, FreeUnchecked_some_fail_debug pf a s p hp hr⟩

theorem Inv_of_FreeUnchecked {W : Type} (NDEBUG : Bool) (pf : Platform W) (a : Allocator)
    (s : Sys W) (h : a.Inv) : (Allocator.FreeUnchecked NDEBUG pf a s).2.1.Inv := by
  rcases FreeUnchecked_cases NDEBUG pf a s h with ⟨s1, h1⟩ | ⟨s1, h1⟩
  · rw [h1]; exact Inv_empty
  · rw [h1]; exact h

/-- C4: every allocator produced by a successful construction from a non-null process and a
non-zero size has `process_`, `base_`, `size_` all non-empty, hence satisfies the invariant
"all empty or all non-empty"; and the invariant is preserved by move construction (new object
and source), move assignment (destination and source), `Free` (whether it returns or throws),
`FreeUnchecked` and the destructor, whatever the foreign primitives do and whether asserts are
compiled out or not (when an assert aborts the program, the members are as they were). -/
theorem Inv_preserved {W : Type} (NDEBUG : Bool) (pf : Platform W) (s : Sys W) :
    (∀ (p : Process) (size : Nat) (a : Allocator) (s1 : Sys W), size ≠ 0 →
      Allocator.ctor pf (some p) size s = some (Except.ok a, s1) → a.IsOwning ∧ a.Inv) ∧
    (∀ other : Allocator, other.Inv →
      (Allocator.ctor_move other s).1.1.Inv ∧ (Allocator.ctor_move other s).1.2.Inv) ∧
    (∀ this other : Allocator, this.Inv → other.Inv →
      (Allocator.operator_assign NDEBUG pf this other s).2.1.1.Inv ∧
      (Allocator.operator_assign NDEBUG pf this other s).2.1.2.Inv) ∧
    (∀ this : Allocator, this.Inv → (Allocator.Free pf this s).2.1.Inv) ∧
    (∀ this : Allocator, this.Inv → (Allocator.FreeUnchecked NDEBUG pf this s).2.1.Inv) ∧
    (∀ this : Allocator, this.Inv → (Allocator.dtor NDEBUG pf this s).2.1.Inv) := by
  refine ⟨?_, ?_, ?_, ?_, ?_, ?_⟩
  · intro p size a s1 hsize hc
    have hown : a.IsOwning := by
      by_cases h : (pf.VirtualAllocEx s.world p.GetHandle 0 size (MEM_COMMIT ||| MEM_RESERVE)
          PAGE_EXECUTE_READWRITE).1 = 0
      · simp [Allocator.ctor, Alloc, h] at hc
      · simp [Allocator.ctor, Alloc, h] at hc
        obtain ⟨ha, _⟩ := hc
        subst ha
        exact ⟨by simp, h, hsize⟩
    exact ⟨hown, Or.inr hown⟩
  · intro other h
    exact ⟨h, Inv_empty⟩
  · intro this other ht ho
    rcases FreeUnchecked_cases NDEBUG pf this s ht with ⟨s1, h1⟩ | ⟨s1, h1⟩
    · rw [operator_assign_of_returned_empty NDEBUG pf this other s s1 h1]
      exact ⟨ho, Inv_empty⟩
    · rw [operator_assign_of_aborted NDEBUG pf this other this s s1 h1]
      exact ⟨ht, ho⟩
  · intro this h
    exact Inv_of_Free pf this s h
  · intro this h
    exact Inv_of_FreeUnchecked NDEBUG pf this s h
  · intro this h
    exact Inv_of_FreeUnchecked NDEBUG pf this s h

/-- C4 at concrete allocators: a successful construction, a `Free` that throws, a move
assignment into an owning destination whose free fails, with asserts compiled out and with
asserts enabled. -/
theorem Inv_preserved_witness :
    (4096 : Nat) ≠ 0 ∧
    Allocator.ctor okPlatform (some demoProcess) 4096 sys0 =
      some (Except.ok demoAllocator,
        { world := 0, calls := [Call.VirtualAllocEx 7 0 4096 0x3000 0x40] }) ∧
    demoAllocator.Inv ∧
    demoAllocator2.Inv ∧
    (Allocator.Free failPlatform demoAllocator sys0).2.1.Inv ∧
    (Allocator.operator_assign true failPlatform demoAllocator demoAllocator2
      sys0).2.1.1.Inv ∧
    (Allocator.operator_assign true failPlatform demoAllocator demoAllocator2
      sys0).2.1.2.Inv ∧
    (Allocator.operator_assign false failPlatform demoAllocator demoAllocator2
      sys0).2.1.1.Inv ∧
    (Allocator.dtor false failPlatform demoAllocator sys0).2.1.Inv :=
  ⟨by decide, rfl,
    ((Inv_preserved true okPlatform sys0).1 demoProcess 4096 demoAllocator _ (by decide)
      rfl).2,
    by decide,
    (Inv_preserved true failPlatform sys0).2.2.2.1 demoAllocator (by decide),
    ((Inv_preserved true failPlatform sys0).2.2.1 demoAllocator demoAllocator2 (by decide)
      (by decide)).1,
    ((Inv_preserved true failPlatform sys0).2.2.1 demoAllocator demoAllocator2 (by decide)
      (by decide)).2,
    ((Inv_preserved false failPlatform sys0).2.2.1 demoAllocator demoAllocator2 (by decide)
      (by decide)).1,
    (Inv_preserved false failPlatform sys0).2.2.2.2.2 demoAllocator (by decide)⟩

/-! ## Comparison operators -/

/-- C10: `==` holds iff the bases are equal, `!=` is its negation, and `<`, `<=`, `>`, `>=`
are the comparisons of the bases; exactly one of `a < b`, `a == b`, `a > b` holds, `a <= b`
iff not `b < a`, `<=` is reflexive, transitive and total, and none of the six operators
depends on `process_` or `size_`. -/
theorem comparison_by_base (a b : Allocator) :
    (operator_eq a b = true ↔ a.base_ = b.base_) ∧
    (operator_ne a b = !operator_eq a b) ∧
    (operator_lt a b = true ↔ a.base_ < b.base_) ∧
    (operator_le a b = true ↔ a.base_ ≤ b.base_) ∧
    (operator_gt a b = true ↔ a.base_ > b.base_) ∧
    (operator_ge a b = true ↔ a.base_ ≥ b.base_) ∧
    ((operator_lt a b = true ∧ operator_eq a b = false ∧ operator_gt a b = false) ∨
      (operator_lt a b = false ∧ operator_eq a b = true ∧ operator_gt a b = false) ∨
      (operator_lt a b = false ∧ operator_eq a b = false ∧ operator_gt a b = true)) ∧
    (operator_le a b = !operator_lt b a) ∧
    (operator_ge a b = !operator_lt a b) ∧
    (operator_gt a b = operator_lt b a) ∧
    operator_le a a = true ∧
    (∀ c : Allocator, operator_le a b = true → operator_le b c = true →
      operator_le a c = true) ∧
    (operator_le a b = true ∨ operator_le b a = true) ∧
    (∀ (p q : Option Process) (m n : Nat),
      operator_eq { a with process_ := p, size_ := m } { b with process_ := q, size_ := n } =
        operator_eq a b ∧
      operator_ne { a with process_ := p, size_ := m } { b with process_ := q, size_ := n } =
        operator_ne a b ∧
      operator_lt { a with process_ := p, size_ := m } { b with process_ := q, size_ := n } =
        operator_lt a b ∧
      operator_le { a with process_ := p, size_ := m } { b with process_ := q, size_ := n } =
        operator_le a b ∧
      operator_gt { a with process_ := p, size_ := m } { b with process_ := q, size_ := n } =
        operator_gt a b ∧
      operator_ge { a with process_ := p, size_ := m } { b with process_ := q, size_ := n } =
        operator_ge a b) := by
  refine ⟨?_, rfl, ?_, ?_, ?_, ?_, ?_, ?_, ?_, rfl, ?_, ?_, ?_, ?_⟩
  · simp [operator_eq, Allocator.GetBase]
  · simp [operator_lt, Allocator.GetBase]
  · simp [operator_le, Allocator.GetBase]
  · simp [operator_gt, Allocator.GetBase]
  · simp [operator_ge, Allocator.GetBase]
  · simp only [operator_eq, operator_lt, operator_gt, Allocator.GetBase]
    rcases Nat.lt_trichotomy a.base_ b.base_ with h | h | h
    · left
      have h1 : ¬ a.base_ = b.base_ := by omega
      have h2 : ¬ a.base_ > b.base_ := by omega
      simp [h, h1, h2]
    · right; left
      simp [h]
    · right; right
      have h1 : ¬ a.base_ = b.base_ := by omega
      have h2 : ¬ a.base_ < b.base_ := by omega
      simp [h, h1, h2]
  · simp only [operator_le, operator_lt, Allocator.GetBase]
    by_cases h : a.base_ ≤ b.base_
    · have h2 : ¬ b.base_ < a.base_ := by omega
      simp [h, h2]
    · have h2 : b.base_ < a.base_ := by omega
      simp [h, h2]
  · simp only [operator_ge, operator_lt, Allocator.GetBase]
    by_cases h : a.base_ < b.base_
    · have h2 : ¬ a.base_ ≥ b.base_ := by omega
      simp [h, h2]
    · have h2 : a.base_ ≥ b.base_ := by omega
      simp [h, h2]
  · simp [operator_le, Allocator.GetBase]
  · intro c h1 h2
    simp only [operator_le, Allocator.GetBase, decide_eq_true_eq] at *
    omega
  · simp only [operator_le, Allocator.GetBase, decide_eq_true_eq]
    omega
  · intro p q m n
    exact ⟨rfl, rfl, rfl, rfl, rfl, rfl⟩

/-- C10 at two allocators of different processes and sizes with the same base, and at a
third one with a greater base. -/
theorem comparison_by_base_witness :
    operator_eq demoAllocator { process_ := none, base_ := 0x10000, size_ := 1 } = true ∧
    operator_lt demoAllocator demoAllocator2 = true ∧
    operator_le demoAllocator
      { process_ := none, base_ := 0x30000, size_ := 0 } = true :=
  ⟨(comparison_by_base demoAllocator { process_ := none, base_ := 0x10000, size_ := 1 }).1.2
      rfl,
    (comparison_by_base demoAllocator demoAllocator2).2.2.1.2 (by decide),
    (comparison_by_base demoAllocator demoAllocator2).2.2.2.2.2.2.2.2.2.2.2.1
      { process_ := none, base_ := 0x30000, size_ := 0 } (by decide) (by decide)⟩

/-! ## Region enumeration -/

/-- Every query of `shiftingSpace` succeeds and reports a region of non-zero size that
contains the queried address. -/
theorem shiftingSpace_query_contains (a : Nat) (ha : a ≤ shiftingSpace.addr_max) :
    ∃ r, shiftingSpace.query a = Except.ok r ∧ r.base_ ≤ a ∧ a < r.base_ + r.size_ ∧
      r.size_ ≠ 0 := by
  have ha2 : a ≤ 0xFFFFFFFF := ha
  by_cases h1 : a < 0x20000
  · refine ⟨{ base_ := 0, alloc_base_ := 0, size_ := 0x30000, protect_ := 0x01,
              state_ := 0x10000, type_ := 0 }, by simp [shiftingSpace, h1], ?_, ?_, ?_⟩
    · exact Nat.zero_le a
    · show a < 0 + 0x30000
      omega
    · show (0x30000 : Nat) ≠ 0
      decide
  · by_cases h2 : a < 0x40000
    · refine ⟨{ base_ := 0x20000, alloc_base_ := 0x20000, size_ := 0x20000, protect_ := 0x40,
                state_ := 0x1000, type_ := 0x20000 }, by simp [shiftingSpace, h1, h2],
        ?_, ?_, ?_⟩
      · show 0x20000 ≤ a
        omega
      · show a < 0x20000 + 0x20000
        omega
      · show (0x20000 : Nat) ≠ 0
        decide
    · refine ⟨{ base_ := 0x40000, alloc_base_ := 0, size_ := 0xFFFC0000, protect_ := 0x01,
                state_ := 0x10000, type_ := 0 }, by simp [shiftingSpace, h1, h2], ?_, ?_, ?_⟩
      · show 0x40000 ≤ a
        omega
      · show a < 0x40000 + 0xFFFC0000
        omega
      · show (0xFFFC0000 : Nat) ≠ 0
        decide

end hadesmem
